import Mathlib

/-
  Verification development for fastapi-redilimit.

  The Python sources are shallowly embedded:
  * `RateLimitOptions`, `RateLimitResult` mirror the dataclasses in
    rate_limiter.py (machine integers are modelled as ℤ, wall-clock floats
    as ℚ).
  * The Redis sorted set behind one identity key is modelled as `ZSetState`;
    a pipeline is a `List RedisOp` executed by `execPipe`.  A sorted-set
    member is the Python string `str(score)`; since Python's `str` on
    distinct floats yields distinct strings, a member is faithfully
    represented by its score, so `ZSetState.entries` stores the scores.
  * `uuid.uuid5(uuid.NAMESPACE_DNS, s)` comes from the Python standard
    library (an external collaborator); it is modelled as an abstract
    function parameter `uuid5dns : String → String` standing for
    `fun s => str(uuid5(NAMESPACE_DNS, s))`.  Likewise `user_agents.parse`
    only feeds display fields that no key or decision depends on, so it is
    not modelled.
  * Fallible Python code (raising `ValueError`, `AttributeError`,
    `HTTPException(500)`) is embedded with `Except`.
-/

namespace Redilimit

/-- Mirrors `RateLimitOptions` of rate_limiter.py (the validated dataclass
fields; validation itself is `mkRateLimitOptions`). -/
structure RateLimitOptions where
  max_requests : ℤ
  window_seconds : ℤ
  window_hours : ℤ
deriving DecidableEq

/-- Mirrors the `total_seconds` property:
`window_seconds + window_hours * 3600`. -/
def RateLimitOptions.total_seconds (o : RateLimitOptions) : ℤ :=
  o.window_seconds + o.window_hours * 3600

/-- The validity predicate enforced by `RateLimitOptions.__post_init__`. -/
def RateLimitOptions.valid (o : RateLimitOptions) : Prop :=
  0 < o.max_requests ∧ 0 < o.window_seconds ∧ 0 ≤ o.window_hours

instance (o : RateLimitOptions) : Decidable o.valid := by
  unfold RateLimitOptions.valid
  infer_instance

/-- Mirrors `RateLimitOptions.__post_init__`: construction raises
`ValueError` (modelled as `Except.error`) exactly on the three checks,
in source order, and otherwise stores the fields unchanged. -/
def mkRateLimitOptions (max_requests window_seconds window_hours : ℤ) :
    Except String RateLimitOptions :=
  if max_requests ≤ 0 then .error "requests must be a positive integer"
  else if window_seconds ≤ 0 then .error "window_seconds must be a positive integer"
  else if window_hours < 0 then .error "window_hours must be a non-negative integer"
  else .ok ⟨max_requests, window_seconds, window_hours⟩

/-- Mirrors the `RateLimitResult` dataclass of rate_limiter.py. -/
structure RateLimitResult where
  allowed : Bool
  current_requests : ℤ
  limit : ℤ
  window_seconds : ℤ
  reset_time : ℤ
  retry_after : Option ℤ
deriving DecidableEq

/-- Mirrors the `remaining` property: `max(0, limit - current_requests)`. -/
def RateLimitResult.remaining (r : RateLimitResult) : ℤ :=
  max 0 (r.limit - r.current_requests)

/-- Python's `int()` applied to a float: truncation toward zero. -/
def pyInt (q : ℚ) : ℤ :=
  if q < 0 then ⌈q⌉ else ⌊q⌋

/-- The request context consumed by utils.py and key_generators.py:
`headers.get("X-Forwarded-For")`, `headers.get("User-Agent")` and
`request.client.host` (absent header / client modelled as `none`). -/
structure Request where
  x_forwarded_for : Option String
  user_agent_header : Option String
  client_host : Option String
deriving DecidableEq

/-- Mirrors `get_request_ip` of utils.py, including Python truthiness of
the forwarded-for header (an empty string falls through to the client
host) and the "unknown" sentinel. -/
def get_request_ip (r : Request) : String :=
  match r.x_forwarded_for with
  | some fwd =>
      if fwd = "" then
        match r.client_host with
        | some h => h
        | none => "unknown"
      else (fwd.splitOn ",").headD fwd
  | none =>
      match r.client_host with
      | some h => h
      | none => "unknown"

/-- Mirrors `ClientUserAgent` of utils.py restricted to the raw
`user_agent` string; the browser/OS/device fields produced by the external
`user_agents` library influence neither `uaid` nor any key. -/
structure ClientUserAgent where
  user_agent : String
deriving DecidableEq

/-- Mirrors `ClientUserAgent.from_request`:
`user_agent = request.headers.get("User-Agent", "")`. -/
def clientUserAgentFromRequest (r : Request) : ClientUserAgent :=
  { user_agent := r.user_agent_header.getD "" }

/-- Mirrors the `uaid` property:
`str(uuid.uuid5(uuid.NAMESPACE_DNS, self.user_agent))`, with the stdlib
hash abstracted as `uuid5dns`. -/
def ClientUserAgent.uaid (uuid5dns : String → String) (c : ClientUserAgent) : String :=
  uuid5dns c.user_agent

/-- Mirrors `IPKeyGenerator.__call__` of key_generators.py. -/
def ipKeyGenerator (key_pfx : String) (r : Request) : String :=
  key_pfx ++ ":ip:" ++ get_request_ip r

/-- Mirrors `UserAgentKeyGenerator.__call__` of key_generators.py. -/
def userAgentKeyGenerator (uuid5dns : String → String) (key_pfx : String)
    (r : Request) : String :=
  key_pfx ++ ":ua:" ++ (clientUserAgentFromRequest r).uaid uuid5dns

/-- Mirrors `ClientKeyGenerator.__call__` of key_generators.py. -/
def clientKeyGenerator (uuid5dns : String → String) (key_pfx : String)
    (r : Request) : String :=
  key_pfx ++ ":fp:" ++ get_request_ip r ++ ":" ++ (clientUserAgentFromRequest r).uaid uuid5dns

/-- Mirrors `RateLimitStrategy` of rate_limiter.py. -/
inductive RateLimitStrategy where
  | ip
  | user_agent
  | client
  | custom
deriving DecidableEq

/-- Mirrors `_get_key_generator` of rate_limiter.py. -/
def getKeyGenerator (uuid5dns : String → String) (key_pfx : String)
    (strategy : RateLimitStrategy)
    (custom_key_generator : Option (Request → String)) :
    Except String (Request → String) :=
  match strategy with
  | .ip => .ok (ipKeyGenerator key_pfx)
  | .user_agent => .ok (userAgentKeyGenerator uuid5dns key_pfx)
  | .client => .ok (clientKeyGenerator uuid5dns key_pfx)
  | .custom =>
      match custom_key_generator with
      | none => .error "Custom key generator must be provided for the CUSTOM strategy"
      | some g => .ok g

/-- The Redis commands issued by `__slide_rate_limit_window`, against one
identity key. -/
inductive RedisOp where
  | zremrangebyscore (key : String) (lo hi : ℚ)
  | zadd (key : String) (member : String) (score : ℚ)
  | zcard (key : String)
  | expire (key : String) (seconds : ℤ)
deriving DecidableEq

/-- The Redis sorted set stored under one identity key: the scores of its
members (the member string is `str(score)`, unique per score) plus the
key's TTL. -/
structure ZSetState where
  entries : List ℚ
  ttl : Option ℤ
deriving DecidableEq

/-- Redis semantics of one command on one key's sorted set.  `zadd` with an
existing member overwrites it (here: same member means same score, so the
set is unchanged); the second component is the Redis integer reply. -/
def execOp (st : ZSetState) : RedisOp → ZSetState × ℤ
  | .zremrangebyscore _ lo hi =>
      let kept := st.entries.filter (fun s => !(decide (lo ≤ s ∧ s ≤ hi)))
      ({ st with entries := kept }, (st.entries.length : ℤ) - (kept.length : ℤ))
  | .zadd _ _ score =>
      if score ∈ st.entries then (st, 0)
      else ({ st with entries := st.entries ++ [score] }, 1)
  | .zcard _ => (st, (st.entries.length : ℤ))
  | .expire _ seconds => ({ st with ttl := some seconds }, 1)

/-- A Redis pipeline: commands executed in order, replies collected in
order, one reply per command. -/
def execPipe (st : ZSetState) : List RedisOp → ZSetState × List ℤ
  | [] => (st, [])
  | op :: ops =>
      let step := execOp st op
      let rest := execPipe step.1 ops
      (rest.1, step.2 :: rest.2)

/-- The four commands queued by `_Limiter.__slide_rate_limit_window`, in
source order. -/
def slideOps (opts : RateLimitOptions) (key : String)
    (current_time window_start : ℚ) : List RedisOp :=
  [ .zremrangebyscore key 0 window_start,
    .zadd key (toString current_time) current_time,
    .zcard key,
    .expire key (opts.window_seconds + 1) ]

/-- Mirrors `_Limiter.__slide_rate_limit_window`: run the pipeline, return
its reply list. -/
def slide_rate_limit_window (opts : RateLimitOptions) (key : String)
    (st : ZSetState) (current_time window_start : ℚ) : ZSetState × List ℤ :=
  execPipe st (slideOps opts key current_time window_start)

/-- The window start computed by `_Limiter.__get_rate_limit`:
`current_time - total_seconds`, clamped at 0 when negative. -/
def windowStartOf (opts : RateLimitOptions) (current_time : ℚ) : ℚ :=
  if current_time - (opts.total_seconds : ℚ) < 0 then 0
  else current_time - (opts.total_seconds : ℚ)

/-- A failed `pipe.execute()` (any exception from the Redis client). -/
inductive StoreFailure where
  | exception
deriving DecidableEq

/-- The `HTTPException(500)` raised by `_Limiter.__get_rate_limit`. -/
inductive LimiterError where
  | http500
deriving DecidableEq

/-- The decision part of `_Limiter.__get_rate_limit`, taking the store's
response: a raised exception or a missing `results[2]` (IndexError) is
caught and becomes the 500 error; otherwise `results[2]` is the request
count and the result record is derived exactly as in the source. -/
def getRateLimitCore (opts : RateLimitOptions) (current_time : ℚ)
    (resp : Except StoreFailure (List ℤ)) : Except LimiterError RateLimitResult :=
  match resp with
  | .error _ => .error .http500
  | .ok results =>
      match results.get? 2 with
      | none => .error .http500
      | some request_count =>
          let reset_time := pyInt (current_time + (opts.total_seconds : ℚ))
          let request_allowed := decide (request_count ≤ opts.max_requests)
          .ok { allowed := request_allowed,
                current_requests := request_count,
                limit := opts.max_requests,
                window_seconds := opts.total_seconds,
                reset_time := reset_time,
                retry_after :=
                  if request_allowed then none
                  else some (reset_time - pyInt current_time) }

/-- Mirrors `_Limiter.__get_rate_limit` when the store itself is healthy
(the pipeline executes with the semantics of `execPipe`): compute the
window start, run the pipeline, derive the decision. -/
def get_rate_limit (opts : RateLimitOptions) (key : String) (st : ZSetState)
    (current_time : ℚ) : ZSetState × Except LimiterError RateLimitResult :=
  let piped := slide_rate_limit_window opts key st current_time (windowStartOf opts current_time)
  (piped.1, getRateLimitCore opts current_time (.ok piped.2))

/-- Mirrors `_Limiter.check`, which delegates to `__get_rate_limit`. -/
def check (opts : RateLimitOptions) (key : String) (st : ZSetState)
    (current_time : ℚ) : ZSetState × Except LimiterError RateLimitResult :=
  get_rate_limit opts key st current_time

/-- A sequence of checks for one identity key, threading the key's store
state; `times` are the successive wall-clock captures. -/
def runChecks (opts : RateLimitOptions) (key : String) (st : ZSetState) :
    List ℚ → ZSetState × List (Except LimiterError RateLimitResult)
  | [] => (st, [])
  | t :: ts =>
      let step := check opts key st t
      let rest := runChecks opts key step.1 ts
      (rest.1, step.2 :: rest.2)

/-- Mirrors `_Limiter` of rate_limiter.py: options plus the key generator
(the Redis connection is the ZSetState threaded through `check`). -/
structure Limiter where
  options : RateLimitOptions
  key_generator : Request → String

/-- Mirrors `RedisRateLimiter` of rate_limiter.py. -/
structure RedisRateLimiter where
  strategy : RateLimitStrategy
  key_pfx : String
  key_generator : Request → String

/-- Mirrors `RedisRateLimiter.__init__`, which calls `_get_key_generator`
(and may therefore raise). -/
def mkRedisRateLimiter (uuid5dns : String → String)
    (strategy : RateLimitStrategy) (key_pfx : String)
    (custom_key_generator : Option (Request → String)) :
    Except String RedisRateLimiter :=
  (getKeyGenerator uuid5dns key_pfx strategy custom_key_generator).map
    (fun g => ⟨strategy, key_pfx, g⟩)

/-- Mirrors `RedisRateLimiter.create_limiter`: validate the options, share
the process-wide key generator. -/
def RedisRateLimiter.create_limiter (rl : RedisRateLimiter)
    (max_requests window_seconds window_hours : ℤ) : Except String Limiter :=
  (mkRateLimitOptions max_requests window_seconds window_hours).map
    (fun o => ⟨o, rl.key_generator⟩)

/-- Python exceptions surfaced by core.py. -/
inductive PyError where
  | attributeError
  | valueError (msg : String)
deriving DecidableEq

/-- The class-attribute state of the `_Redilimiter` singleton in core.py:
whether the `_instance` class attribute exists, and the `_rate_limiter`
class attribute. -/
structure RedilimiterState where
  inst_attr : Option Unit
  rate_limiter : Option RedisRateLimiter

/-- The state before any call: `_rate_limiter = None`; `_instance` is never
declared on the class, so reading it raises `AttributeError`. -/
def redilimiterInitial : RedilimiterState := ⟨none, none⟩

/-- Mirrors `_Redilimiter.setup`: it first evaluates
`if cls._instance is None`, which reads the undeclared class attribute
`_instance` and hence raises `AttributeError` whenever that attribute has
not been set; only if the read succeeds does it store the rate limiter. -/
def redilimiterSetup (st : RedilimiterState) (rl : RedisRateLimiter) :
    Except PyError RedilimiterState :=
  match st.inst_attr with
  | none => .error .attributeError
  | some u => .ok ⟨some u, some rl⟩

/-- Mirrors `_Redilimiter.get_rate_limiter`. -/
def redilimiterGet (st : RedilimiterState) : Except PyError RedisRateLimiter :=
  match st.rate_limiter with
  | none => .error (.valueError "Rate limiter has not been set up.")
  | some rl => .ok rl

/-- Mirrors `setup_rate_limiter` of core.py: build the `RedisRateLimiter`
(whose constructor may raise `ValueError`), then store it via
`_Redilimiter.setup`. -/
def setup_rate_limiter (uuid5dns : String → String) (st : RedilimiterState)
    (strategy : RateLimitStrategy) (key_pfx : String)
    (custom_key_generator : Option (Request → String)) :
    Except PyError RedilimiterState :=
  match mkRedisRateLimiter uuid5dns strategy key_pfx custom_key_generator with
  | .error e => .error (.valueError e)
  | .ok rl => redilimiterSetup st rl

/-- Mirrors `rate_limit` of core.py up to returning the bound limiter
(the returned enforcer closes over exactly this limiter): fetch the
process-wide rate limiter, then `create_limiter(max_requests=max_requests,
window_hours=per_hour, window_seconds=per_second)`. -/
def rate_limit (st : RedilimiterState)
    (max_requests per_second per_hour : ℤ) : Except PyError Limiter :=
  match redilimiterGet st with
  | .error e => .error e
  | .ok rl =>
      match rl.create_limiter max_requests per_second per_hour with
      | .error e => .error (.valueError e)
      | .ok lim => .ok lim

/-- True exactly on `Except.ok`. -/
def exceptOk {ε α : Type _} : Except ε α → Bool
  | .ok _ => true
  | .error _ => false

/-- The entries surviving the `zremrangebyscore key 0 window_start` step of
one check at time `t`. -/
def prunedEntries (opts : RateLimitOptions) (st : ZSetState) (t : ℚ) : List ℚ :=
  st.entries.filter (fun s => !(decide ((0:ℚ) ≤ s ∧ s ≤ windowStartOf opts t)))

/-- The entries after the prune and the `zadd` of the current timestamp. -/
def entriesAfter (opts : RateLimitOptions) (st : ZSetState) (t : ℚ) : List ℚ :=
  if t ∈ prunedEntries opts st t then prunedEntries opts st t
  else prunedEntries opts st t ++ [t]

/- ------------------------------------------------------------------ -/
/- Theorems.                                                           -/
/- ------------------------------------------------------------------ -/

/-- The clamped window start equals `max 0 (now - total_seconds)`. -/
theorem windowStartOf_eq_max (opts : RateLimitOptions) (t : ℚ) :
    windowStartOf opts t = max 0 (t - (opts.total_seconds : ℚ)) := by
  unfold windowStartOf
  rcases lt_or_le (t - (opts.total_seconds : ℚ)) 0 with h | h
  · simp [h, max_eq_left h.le]
  · simp [not_lt.mpr h, max_eq_right h]

/-- Closed form of one check: the store state it leaves behind and the
full result record it produces. -/
theorem check_eval (opts : RateLimitOptions) (key : String) (st : ZSetState) (t : ℚ) :
    check opts key st t =
      (⟨entriesAfter opts st t, some (opts.window_seconds + 1)⟩,
       .ok { allowed := decide (((entriesAfter opts st t).length : ℤ) ≤ opts.max_requests),
             current_requests := ((entriesAfter opts st t).length : ℤ),
             limit := opts.max_requests,
             window_seconds := opts.total_seconds,
             reset_time := pyInt (t + (opts.total_seconds : ℚ)),
             retry_after :=
               if decide (((entriesAfter opts st t).length : ℤ) ≤ opts.max_requests) then none
               else some (pyInt (t + (opts.total_seconds : ℚ)) - pyInt t) }) := by
  simp only [check, get_rate_limit, slide_rate_limit_window, slideOps, execPipe, execOp,
    getRateLimitCore, entriesAfter, prunedEntries]
  by_cases h : t ∈ st.entries.filter (fun s => !(decide ((0:ℚ) ≤ s ∧ s ≤ windowStartOf opts t)))
  · simp only [if_pos h, List.get?]
  · simp only [if_neg h, List.get?]

/-- Claim C5: for every check, the store-level expiry set on the identity
key equals `options.window_seconds + 1` seconds, regardless of
`window_hours` — the TTL depends only on the base seconds field plus one,
never on `total_seconds`. -/
theorem c5_ttl_is_base_seconds_plus_one (opts : RateLimitOptions) (key : String)
    (st : ZSetState) (now : ℚ) :
    (check opts key st now).1.ttl = some (opts.window_seconds + 1)
    ∧ ∀ hours : ℤ,
        (check ⟨opts.max_requests, opts.window_seconds, hours⟩ key st now).1.ttl
          = some (opts.window_seconds + 1) := by
  constructor
  · rw [check_eval]
  · intro hours
    rw [check_eval]

/-- Claim C6 (amended): the check yields the 500-class error exactly when
the store transaction fails or the result list is too short to contain the
count at index 2 (fewer than three entries); in particular backend failure
is never converted into a returned decision.  (A malformed result with
exactly three entries — fewer than the four operations issued — is NOT
rejected; see the counterexample.) -/
theorem c6_backend_failure_is_500 (opts : RateLimitOptions) (now : ℚ) :
    ∀ resp : Except StoreFailure (List ℤ),
      exceptOk (getRateLimitCore opts now resp) = false ↔
        (resp = .error .exception ∨ ∃ l, resp = .ok l ∧ l.length < 3) := by
  intro resp
  match resp with
  | .error e =>
      cases e
      simp [getRateLimitCore, exceptOk]
  | .ok l =>
      rcases hget : l[2]? with _ | c
      · have hlen : l.length ≤ 2 := List.getElem?_eq_none_iff.mp hget
        simp [getRateLimitCore, hget, exceptOk]
        omega
      · obtain ⟨hlt, -⟩ := List.getElem?_eq_some_iff.mp hget
        simp [getRateLimitCore, hget, exceptOk]
        omega

/-- Claim C6 counterexample: a store response with three entries — fewer
than the four operations issued — is structurally malformed by the claim's
own example, yet the check does not raise: it returns a RateLimitResult
built from the entry at index 2. -/
theorem c6_counterexample :
    getRateLimitCore ⟨2, 60, 0⟩ 100 (.ok [0, 1, 5])
      = .ok ⟨false, 5, 2, 60, 160, some 60⟩ := by
  norm_num [getRateLimitCore, pyInt, RateLimitOptions.total_seconds, List.get?]

/-- Claim C9: constructing RateLimitOptions fails exactly when
`max_requests ≤ 0`, or `window_seconds ≤ 0`, or `window_hours < 0`; on
success the fields are stored unchanged (never clamped); configuring the
CUSTOM strategy without a caller-supplied key generator fails immediately
(the key-generator dispatch is pure — no store interaction exists at
construction time); and limiter construction validates at construction. -/
theorem c9_configuration_validation :
    (∀ m w h : ℤ, exceptOk (mkRateLimitOptions m w h) = false ↔ (m ≤ 0 ∨ w ≤ 0 ∨ h < 0))
    ∧ (∀ (m w h : ℤ) (o : RateLimitOptions), mkRateLimitOptions m w h = .ok o → o = ⟨m, w, h⟩)
    ∧ (∀ (uuid5dns : String → String) (key_pfx : String),
        getKeyGenerator uuid5dns key_pfx .custom none
          = .error "Custom key generator must be provided for the CUSTOM strategy")
    ∧ (∀ (rl : RedisRateLimiter) (m w h : ℤ),
        exceptOk (rl.create_limiter m w h) = false ↔ (m ≤ 0 ∨ w ≤ 0 ∨ h < 0)) := by
  refine ⟨?_, ?_, ?_, ?_⟩
  · intro m w h
    unfold mkRateLimitOptions
    split_ifs with h1 h2 h3 <;> simp [exceptOk] <;> omega
  · intro m w h o ho
    unfold mkRateLimitOptions at ho
    split_ifs at ho
    simp_all
  · intro u p
    rfl
  · intro rl m w h
    unfold RedisRateLimiter.create_limiter mkRateLimitOptions
    split_ifs with h1 h2 h3 <;> simp [exceptOk, Except.map] <;> omega

/-- Witness for C9 at concrete inputs: max_requests 0 is rejected, and a
valid construction stores the fields unchanged. -/
theorem c9_witness :
    exceptOk (mkRateLimitOptions 0 60 0) = false
    ∧ (⟨5, 60, 0⟩ : RateLimitOptions) = ⟨5, 60, 0⟩ :=
  ⟨(c9_configuration_validation.1 0 60 0).mpr (Or.inl (by decide)),
   c9_configuration_validation.2.1 5 60 0 ⟨5, 60, 0⟩ rfl⟩

/-- Claim C10: a request carrying no User-Agent header gets the empty
string as raw user agent, its derived identifier is the fixed constant
`uuid5dns ""` (modelling `uuid5(NAMESPACE_DNS, "")`), and any two such
requests resolve to the same identity key under the user-agent strategy. -/
theorem c10_missing_user_agent_constant (uuid5dns : String → String)
    (key_pfx : String) (r1 r2 : Request)
    (h1 : r1.user_agent_header = none) (h2 : r2.user_agent_header = none) :
    (clientUserAgentFromRequest r1).user_agent = ""
    ∧ (clientUserAgentFromRequest r1).uaid uuid5dns = uuid5dns ""
    ∧ userAgentKeyGenerator uuid5dns key_pfx r1 = userAgentKeyGenerator uuid5dns key_pfx r2 := by
  simp [clientUserAgentFromRequest, ClientUserAgent.uaid, userAgentKeyGenerator, h1, h2]

/-- Witness for C10 at concrete requests without a User-Agent header. -/
theorem c10_witness :
    (clientUserAgentFromRequest ⟨none, none, some "1.2.3.4"⟩).user_agent = ""
    ∧ (clientUserAgentFromRequest ⟨none, none, some "1.2.3.4"⟩).uaid (fun _ => "uaid-const")
        = (fun _ => "uaid-const") ""
    ∧ userAgentKeyGenerator (fun _ => "uaid-const") "ratelimit" ⟨none, none, some "1.2.3.4"⟩
        = userAgentKeyGenerator (fun _ => "uaid-const") "ratelimit" ⟨some "10.0.0.1", none, none⟩ :=
  c10_missing_user_agent_constant (fun _ => "uaid-const") "ratelimit"
    ⟨none, none, some "1.2.3.4"⟩ ⟨some "10.0.0.1", none, none⟩ rfl rfl

/-- Claim C4 (code bug): calling the limiter factory before setup does
fail with the configuration ValueError, but the setup call itself never
completes: `_Redilimiter.setup` begins by reading `cls._instance`, a class
attribute that is never declared, so from the initial process state every
setup call — any strategy, any prefix — raises AttributeError instead of
installing the rate limiter. -/
theorem c4_setup_never_completes :
    (∀ m s h : ℤ, rate_limit redilimiterInitial m s h
        = .error (.valueError "Rate limiter has not been set up."))
    ∧ (∀ (uuid5dns : String → String) (key_pfx : String),
        setup_rate_limiter uuid5dns redilimiterInitial .client key_pfx none
          = .error .attributeError)
    ∧ (∀ (uuid5dns : String → String) (strategy : RateLimitStrategy) (key_pfx : String)
        (custom : Option (Request → String)),
        exceptOk (setup_rate_limiter uuid5dns redilimiterInitial strategy key_pfx custom)
          = false) := by
  refine ⟨?_, ?_, ?_⟩
  · intro m s h
    rfl
  · intro u p
    rfl
  · intro u strat p c
    cases strat <;> cases c <;> rfl

/-- Claim C3 counterexample: two limiters created from the same setup
(prefix "ratelimit", IP strategy) with distinct configurations
(1 req / 60 s vs 2 req / 600 s + 1 h) have distinct options yet produce
the identical store key for the same caller identity — the keys collide. -/
theorem c3_counterexample :
    ((mkRedisRateLimiter (fun _ => "uaid") .ip "ratelimit" none).bind (fun rl =>
      (rl.create_limiter 1 60 0).bind (fun a =>
        (rl.create_limiter 2 600 1).map (fun b =>
          (decide (a.options ≠ b.options),
           decide (a.key_generator ⟨none, none, some "1.2.3.4"⟩
             = b.key_generator ⟨none, none, some "1.2.3.4"⟩))))))
      = .ok (true, true) := by
  rfl

/-- Claim C3 (amended): any two limiters created from the same process-wide
setup share the key generator, so for the same caller identity they use
the SAME store key regardless of their (distinct) configurations: the key
depends only on prefix, strategy tag and identity value, and the
identity's sliding window is shared across configurations. -/
theorem c3_amended_shared_key (rl : RedisRateLimiter)
    (mA sA hrA mB sB hrB : ℤ) (limA limB : Limiter)
    (hokA : rl.create_limiter mA sA hrA = .ok limA)
    (hokB : rl.create_limiter mB sB hrB = .ok limB)
    (req : Request) :
    limA.key_generator req = limB.key_generator req := by
  unfold RedisRateLimiter.create_limiter at hokA hokB
  cases hmkA : mkRateLimitOptions mA sA hrA with
  | error e =>
      rw [hmkA] at hokA
      simp [Except.map] at hokA
  | ok oA =>
      rw [hmkA] at hokA
      simp only [Except.map] at hokA
      cases hmkB : mkRateLimitOptions mB sB hrB with
      | error e =>
          rw [hmkB] at hokB
          simp [Except.map] at hokB
      | ok oB =>
          rw [hmkB] at hokB
          simp only [Except.map] at hokB
          cases hokA
          cases hokB
          rfl

/-- Witness for C3 (amended) at concrete limiters sharing one setup. -/
theorem c3_witness :
    (⟨⟨1, 60, 0⟩, ipKeyGenerator "ratelimit"⟩ : Limiter).key_generator ⟨none, none, some "1.2.3.4"⟩
      = (⟨⟨2, 600, 1⟩, ipKeyGenerator "ratelimit"⟩ : Limiter).key_generator ⟨none, none, some "1.2.3.4"⟩ :=
  c3_amended_shared_key ⟨.ip, "ratelimit", ipKeyGenerator "ratelimit"⟩ 1 60 0 2 600 1
    ⟨⟨1, 60, 0⟩, ipKeyGenerator "ratelimit"⟩ ⟨⟨2, 600, 1⟩, ipKeyGenerator "ratelimit"⟩
    rfl rfl ⟨none, none, some "1.2.3.4"⟩

/-- A valid configuration has a positive effective window. -/
theorem total_seconds_pos (opts : RateLimitOptions) (hv : opts.valid) :
    0 < opts.total_seconds := by
  rcases hv with ⟨-, h2, h3⟩
  unfold RateLimitOptions.total_seconds
  omega

/-- Python `int()` on a non-negative float is the floor. -/
theorem pyInt_of_nonneg (q : ℚ) (hq : 0 ≤ q) : pyInt q = ⌊q⌋ := by
  unfold pyInt
  rw [if_neg (not_lt.mpr hq)]

/-- Python `int(q + n)` for non-negative `q` and non-negative integer `n`
is `⌊q⌋ + n`. -/
theorem pyInt_add_int (q : ℚ) (n : ℤ) (hq : 0 ≤ q) (hn : 0 ≤ n) :
    pyInt (q + (n : ℚ)) = ⌊q⌋ + n := by
  have hn' : (0 : ℚ) ≤ (n : ℚ) := by exact_mod_cast hn
  rw [pyInt_of_nonneg _ (by linarith)]
  exact Int.floor_add_int q n

/-- Claim C2: one check issues, in order, exactly the prune (all scores up
to `window_start = max 0 (now - total_seconds)`), the insert of the
stringified current timestamp scored `now`, the count of the remaining
members (which includes the just-inserted entry), and the expiry refresh —
and the returned `current_requests` equals that count. -/
theorem c2_check_pipeline (opts : RateLimitOptions) (key : String) (st : ZSetState)
    (now : ℚ) (hst : ∀ s ∈ st.entries, (0:ℚ) ≤ s) :
    slideOps opts key now (windowStartOf opts now) =
      [ .zremrangebyscore key 0 (max 0 (now - (opts.total_seconds : ℚ))),
        .zadd key (toString now) now,
        .zcard key,
        .expire key (opts.window_seconds + 1) ]
    ∧ (check opts key st now).1.entries =
        (let kept := st.entries.filter
            (fun s => !(decide (s ≤ max 0 (now - (opts.total_seconds : ℚ)))))
         if now ∈ kept then kept else kept ++ [now])
    ∧ now ∈ (check opts key st now).1.entries
    ∧ (check opts key st now).1.ttl = some (opts.window_seconds + 1)
    ∧ (∃ r, (check opts key st now).2 = .ok r
        ∧ r.current_requests = ((check opts key st now).1.entries.length : ℤ)) := by
  have hfilter : prunedEntries opts st now
      = st.entries.filter (fun s => !(decide (s ≤ max 0 (now - (opts.total_seconds : ℚ))))) := by
    unfold prunedEntries
    rw [windowStartOf_eq_max]
    refine List.filter_congr ?_
    intro s hs
    simp [hst s hs]
  refine ⟨?_, ?_, ?_, ?_, ?_⟩
  · simp [slideOps, windowStartOf_eq_max]
  · rw [check_eval]
    simp only [entriesAfter, hfilter]
  · rw [check_eval]
    simp only [entriesAfter]
    by_cases h : now ∈ prunedEntries opts st now
    · simp [h]
    · simp [h]
  · rw [check_eval]
  · rw [check_eval]
    exact ⟨_, rfl, rfl⟩

/-- Witness for C2 at a concrete state holding one non-negative score. -/
theorem c2_witness :
    (5 : ℚ) ∈ (check ⟨1, 3, 0⟩ "k" ⟨[2], none⟩ 5).1.entries :=
  (c2_check_pipeline ⟨1, 3, 0⟩ "k" ⟨[2], none⟩ 5 (by decide)).2.2.1

/-- Claim C7: in every result produced by a check, `retry_after` is
present exactly when `allowed` is false, and when present it is
non-negative. -/
theorem c7_retry_after_presence (opts : RateLimitOptions) (hv : opts.valid)
    (key : String) (st : ZSetState) (now : ℚ) (hnow : (0:ℚ) ≤ now)
    (r : RateLimitResult) (hr : (check opts key st now).2 = .ok r) :
    ((r.retry_after ≠ none) ↔ r.allowed = false)
    ∧ ∀ v, r.retry_after = some v → 0 ≤ v := by
  rw [check_eval] at hr
  injection hr with h
  subst h
  have hT : 0 < opts.total_seconds := total_seconds_pos opts hv
  have hfloor : pyInt (now + (opts.total_seconds : ℚ)) = ⌊now⌋ + opts.total_seconds :=
    pyInt_add_int now opts.total_seconds hnow hT.le
  have hpy : pyInt now = ⌊now⌋ := pyInt_of_nonneg now hnow
  constructor
  · by_cases hc : ((entriesAfter opts st now).length : ℤ) ≤ opts.max_requests
    · simp [hc]
    · simp [hc]
  · intro v hv'
    by_cases hc : ((entriesAfter opts st now).length : ℤ) ≤ opts.max_requests
    · simp [hc] at hv'
    · simp [hc] at hv'
      rw [hfloor, hpy] at hv'
      omega

/-- Witness for C7 at a concrete denied check. -/
theorem c7_witness :
    (((⟨false, 3, 1, 60, 63, some 60⟩ : RateLimitResult).retry_after ≠ none)
        ↔ (⟨false, 3, 1, 60, 63, some 60⟩ : RateLimitResult).allowed = false)
    ∧ ∀ v, (⟨false, 3, 1, 60, 63, some 60⟩ : RateLimitResult).retry_after = some v → 0 ≤ v :=
  c7_retry_after_presence ⟨1, 60, 0⟩ (by decide) "k" ⟨[1, 2], none⟩ 3 (by decide)
    ⟨false, 3, 1, 60, 63, some 60⟩
    (by norm_num [check, get_rate_limit, slide_rate_limit_window, slideOps, execPipe,
      execOp, getRateLimitCore, windowStartOf, RateLimitOptions.total_seconds, pyInt,
      List.get?])

/-- Claim C8: every produced result satisfies
`remaining = max 0 (limit - current_requests)`; its `window_seconds` field
is the effective total width `window_seconds + window_hours * 3600`; and
`reset_time = ⌊now⌋ + total_seconds`. -/
theorem c8_result_metadata (opts : RateLimitOptions) (hv : opts.valid)
    (key : String) (st : ZSetState) (now : ℚ) (hnow : (0:ℚ) ≤ now)
    (r : RateLimitResult) (hr : (check opts key st now).2 = .ok r) :
    r.remaining = max 0 (r.limit - r.current_requests)
    ∧ r.window_seconds = opts.window_seconds + opts.window_hours * 3600
    ∧ r.reset_time = ⌊now⌋ + opts.total_seconds := by
  rw [check_eval] at hr
  injection hr with h
  subst h
  refine ⟨rfl, rfl, ?_⟩
  exact pyInt_add_int now opts.total_seconds hnow (total_seconds_pos opts hv).le

/-- Witness for C8 at a concrete check using a non-zero hour component. -/
theorem c8_witness :
    (⟨true, 1, 3, 3660, 3662, none⟩ : RateLimitResult).remaining
      = max 0 ((⟨true, 1, 3, 3660, 3662, none⟩ : RateLimitResult).limit
          - (⟨true, 1, 3, 3660, 3662, none⟩ : RateLimitResult).current_requests)
    ∧ (⟨true, 1, 3, 3660, 3662, none⟩ : RateLimitResult).window_seconds = 60 + 1 * 3600
    ∧ (⟨true, 1, 3, 3660, 3662, none⟩ : RateLimitResult).reset_time
        = ⌊(2:ℚ)⌋ + (⟨3, 60, 1⟩ : RateLimitOptions).total_seconds :=
  c8_result_metadata ⟨3, 60, 1⟩ (by decide) "k" ⟨[], none⟩ 2 (by decide)
    ⟨true, 1, 3, 3660, 3662, none⟩
    (by norm_num [check, get_rate_limit, slide_rate_limit_window, slideOps, execPipe,
      execOp, getRateLimitCore, windowStartOf, RateLimitOptions.total_seconds, pyInt,
      List.get?])

/-- Sequential checks for one fresh-ish identity: when the pre-existing
scores are positive and within the window of every later check time, and
the check times are strictly increasing with each pair closer than the
window width, the i-th check counts `st.entries.length + i + 1` requests
and decides by comparing that count with the quota. -/
theorem runChecks_result_at (opts : RateLimitOptions) (key : String) :
    ∀ (times : List ℚ) (st : ZSetState),
      (∀ s ∈ st.entries, 0 < s) →
      (∀ s ∈ st.entries, ∀ t ∈ times, s < t ∧ t - s < (opts.total_seconds : ℚ)) →
      times.Pairwise (fun a b => a < b ∧ b - a < (opts.total_seconds : ℚ)) →
      (∀ t ∈ times, 0 < t) →
      ∀ i, i < times.length →
        ∃ r, (runChecks opts key st times).2[i]? = some (.ok r)
          ∧ r.current_requests = (st.entries.length : ℤ) + i + 1
          ∧ r.allowed = decide (r.current_requests ≤ opts.max_requests) := by
  intro times
  induction times with
  | nil =>
      intro st _ _ _ _ i hi
      simp at hi
  | cons t ts ih =>
      intro st hpos hrel hpw hts i hi
      have hpt : 0 < t := hts t (List.mem_cons_self t ts)
      have hkeep : prunedEntries opts st t = st.entries := by
        unfold prunedEntries
        refine List.filter_eq_self.mpr ?_
        intro s hs
        have h1 := hpos s hs
        have h2 := (hrel s hs t (List.mem_cons_self t ts)).2
        have hws : windowStartOf opts t < s := by
          unfold windowStartOf
          split_ifs with h
          · exact h1
          · linarith
        simp only [Bool.not_eq_true', decide_eq_false_iff_not]
        rintro ⟨-, hle⟩
        linarith
      have hnot : t ∉ prunedEntries opts st t := by
        rw [hkeep]
        intro hmem
        exact absurd (hrel t hmem t (List.mem_cons_self t ts)).1 (lt_irrefl t)
      have hafter : entriesAfter opts st t = st.entries ++ [t] := by
        unfold entriesAfter
        rw [if_neg hnot, hkeep]
      have hsplit : (runChecks opts key st (t :: ts)).2
          = (check opts key st t).2 :: (runChecks opts key (check opts key st t).1 ts).2 := rfl
      have hst1 : (check opts key st t).1
          = (⟨st.entries ++ [t], some (opts.window_seconds + 1)⟩ : ZSetState) := by
        rw [check_eval, hafter]
      cases i with
      | zero =>
          refine ⟨{ allowed := decide (((st.entries ++ [t]).length : ℤ) ≤ opts.max_requests),
                    current_requests := ((st.entries ++ [t]).length : ℤ),
                    limit := opts.max_requests,
                    window_seconds := opts.total_seconds,
                    reset_time := pyInt (t + (opts.total_seconds : ℚ)),
                    retry_after :=
                      if decide (((st.entries ++ [t]).length : ℤ) ≤ opts.max_requests) then none
                      else some (pyInt (t + (opts.total_seconds : ℚ)) - pyInt t) }, ?_, ?_, ?_⟩
          · rw [hsplit, List.getElem?_cons_zero, check_eval, hafter]
          · push_cast [List.length_append, List.length_singleton]
            ring
          · rfl
      | succ j =>
          have hpairs := List.pairwise_cons.mp hpw
          have hpos' : ∀ s ∈ st.entries ++ [t], 0 < s := by
            intro s hs
            rcases List.mem_append.mp hs with h | h
            · exact hpos s h
            · rw [List.mem_singleton.mp h]
              exact hpt
          have hrel' : ∀ s ∈ st.entries ++ [t], ∀ u ∈ ts,
              s < u ∧ u - s < (opts.total_seconds : ℚ) := by
            intro s hs u hu
            rcases List.mem_append.mp hs with h | h
            · exact hrel s h u (List.mem_cons_of_mem t hu)
            · rw [List.mem_singleton.mp h]
              exact hpairs.1 u hu
          have hts' : ∀ u ∈ ts, 0 < u := fun u hu => hts u (List.mem_cons_of_mem t hu)
          obtain ⟨r, hr1, hr2, hr3⟩ :=
            ih ⟨st.entries ++ [t], some (opts.window_seconds + 1)⟩ hpos' hrel' hpairs.2 hts' j
              (by simpa using Nat.lt_of_succ_lt_succ hi)
          refine ⟨r, ?_, ?_, hr3⟩
          · rw [hsplit, List.getElem?_cons_succ, hst1]
            exact hr1
          · rw [hr2]
            push_cast [List.length_append, List.length_singleton]
            ring

/-- Claim C1: every produced result is allowed exactly when
`current_requests ≤ max_requests` (the quota is inclusive), and for a
fresh identity checked `max_requests + 1` times within one window the
first `max_requests` checks are allowed while the last is denied with
count `max_requests + 1`. -/
theorem c1_quota_inclusive (opts : RateLimitOptions) (hv : opts.valid)
    (key : String) (times : List ℚ)
    (hpw : times.Pairwise (fun a b => a < b ∧ b - a < (opts.total_seconds : ℚ)))
    (hpos : ∀ t ∈ times, 0 < t)
    (hlen : times.length = opts.max_requests.toNat + 1) :
    (∀ (st : ZSetState) (now : ℚ) (r : RateLimitResult),
        (check opts key st now).2 = .ok r →
        (r.allowed = true ↔ r.current_requests ≤ opts.max_requests))
    ∧ (∀ i, i < opts.max_requests.toNat →
        ∃ r, (runChecks opts key ⟨[], none⟩ times).2[i]? = some (.ok r)
          ∧ r.allowed = true ∧ r.current_requests = (i : ℤ) + 1)
    ∧ (∃ r, (runChecks opts key ⟨[], none⟩ times).2[opts.max_requests.toNat]?
          = some (.ok r)
        ∧ r.allowed = false ∧ r.current_requests = opts.max_requests + 1) := by
  have hmax : 0 < opts.max_requests := hv.1
  have hbase := runChecks_result_at opts key times ⟨[], none⟩ (by simp) (by simp) hpw hpos
  refine ⟨?_, ?_, ?_⟩
  · intro st now r hr
    rw [check_eval] at hr
    injection hr with h
    subst h
    simp
  · intro i hi
    obtain ⟨r, h1, h2, h3⟩ := hbase i (by omega)
    have hcur : r.current_requests = (i : ℤ) + 1 := by
      rw [h2]
      simp
    refine ⟨r, h1, ?_, hcur⟩
    rw [h3, hcur]
    simp only [decide_eq_true_eq]
    omega
  · obtain ⟨r, h1, h2, h3⟩ := hbase opts.max_requests.toNat (by omega)
    have hcur : r.current_requests = opts.max_requests + 1 := by
      rw [h2]
      simp
      omega
    refine ⟨r, h1, ?_, hcur⟩
    rw [h3, hcur]
    simp only [decide_eq_false_iff_not]
    omega

/-- Witness for C1: quota 2, three checks at seconds 1, 2, 3 — the third
check is denied with count 3. -/
theorem c1_witness :
    ∃ r, (runChecks ⟨2, 60, 0⟩ "k" ⟨[], none⟩ [1, 2, 3]).2[(⟨2, 60, 0⟩ :
            RateLimitOptions).max_requests.toNat]?
          = some (.ok r)
        ∧ r.allowed = false
        ∧ r.current_requests = (⟨2, 60, 0⟩ : RateLimitOptions).max_requests + 1 :=
  (c1_quota_inclusive ⟨2, 60, 0⟩ (by decide) "k" [1, 2, 3]
    (by norm_num [List.pairwise_cons, RateLimitOptions.total_seconds])
    (by decide) (by decide)).2.2

end Redilimit
